import Mathlib

/-!
Shallow embedding of the authentication and account-lockout core of the
repository: `db.py` (SQLite-backed credential store, PBKDF2 hashing) and
`auth_ui.py` (login orchestration, per-user and session-global lockout).

Modelling conventions:
* The SQLite `users` table is a `List UserRecord`; `UPDATE ... WHERE
  username = ?` is a `List.map` that rewrites every matching row, and the
  `UNIQUE` constraint on `username` surfaces as the duplicate check in
  `create_user` (an `INSERT` hitting the constraint raises
  `sqlite3.IntegrityError`, which the code turns into the fixed message).
* Timestamps are integers in seconds (UTC). A timestamp column that holds a
  string is modelled by `Ts`: `Ts.valid t` is an ISO string that parses to
  instant `t`, `Ts.malformed` is a string on which both
  `datetime.fromisoformat` and `datetime.strptime` raise.
* `hashlib.pbkdf2_hmac` with the fixed algorithm `sha256` is an external
  primitive; it enters the model as an explicit function parameter
  `pbkdf2 : String → List Nat → Nat → List Nat` (password, salt bytes,
  iteration count ↦ derived-key bytes). `os.urandom` salts likewise enter
  as explicit `List Nat` arguments.
* Python functions that can raise out of the modelled code path return
  `Option` (`none` = exception propagates); `try/except` blocks match on
  that `Option`.
* Streamlit session state relevant to login is the pair `GState`
  (global failure counter and global lock) plus the `logged_in` flag; the
  user-visible `st.error`/`st.success` call is captured by `LoginOutcome`
  together with `renderLoginMessage`, which rebuilds the exact message
  string the code displays.
-/

/-- Stored timestamp string: either it parses to an instant (seconds, UTC)
or it is malformed and every parse attempt raises. -/
inductive Ts : Type where
  | valid (t : Int) : Ts
  | malformed : Ts
deriving DecidableEq, Repr

/-- Embeds `parse_iso` (auth_ui.py lines 21-25): `fromisoformat` with a
`strptime` fallback; `none` models the exception escaping both. -/
def parse_iso : Ts → Option Int
  | .valid t => some t
  | .malformed => none

/-- Row of the `users` table (db.py `init_db`, lines 31-44), with the column
names of `_user_row_to_dict`. -/
structure UserRecord : Type where
  id : Nat
  username : String
  role : String
  salt_hex : String
  password_hash_hex : String
  failed_attempts : Int
  lock_until : Option Ts
  password_last_set : Option Ts
  created_at : Option Ts
  updated_at : Option Ts
deriving DecidableEq, Repr

/-- Credential store: the `users` table as a list of rows. -/
abbrev Db : Type := List UserRecord

/-- Session-global guard state (auth_ui.py `init_global_guard`):
`st.session_state["global_failed_attempts"]` and
`st.session_state["global_lock_until"]`. The stored lock string is always
written by `register_global_fail` from a real datetime, so it is kept here
as an already-parsed instant. -/
structure GState : Type where
  global_failed_attempts : Int
  global_lock_until : Option Int
deriving DecidableEq, Repr

/-- Policy constant `MAX_FAILED_ATTEMPTS` (auth_ui.py line 8). -/
def MAX_FAILED_ATTEMPTS : Int := 5

/-- Policy constant `LOCKOUT_MINUTES` (auth_ui.py line 9). -/
def LOCKOUT_MINUTES : Int := 15

/-- Policy constant `GLOBAL_MAX_FAILED_ATTEMPTS` (auth_ui.py line 11). -/
def GLOBAL_MAX_FAILED_ATTEMPTS : Int := 12

/-- Policy constant `GLOBAL_LOCK_MINUTES` (auth_ui.py line 12). -/
def GLOBAL_LOCK_MINUTES : Int := 15

/-- Policy constant `PASSWORD_EXPIRY_DAYS` (auth_ui.py line 14). -/
def PASSWORD_EXPIRY_DAYS : Int := 90

/-- Hashing constant `PBKDF2_ITERATIONS` (db.py line 11). -/
def PBKDF2_ITERATIONS : Nat := 200000

/-- Hashing constant `SALT_BYTES` (db.py line 12). -/
def SALT_BYTES : Nat := 16

/-- Lowercase hex digits, the alphabet of `bytes.hex()`. -/
def hexDigitChars : List Char := "0123456789abcdef".toList

/-- Hex digit for a nibble value, as produced by `bytes.hex()`. -/
def charOfNibble (n : Nat) : Char := hexDigitChars.getD n '0'

/-- Nibble value of a hex digit as accepted by `bytes.fromhex` (both
cases); `none` models the `ValueError` on a non-hex character. -/
def nibbleOfChar (c : Char) : Option Nat :=
  if '0' ≤ c ∧ c ≤ '9' then some (c.toNat - '0'.toNat)
  else if 'a' ≤ c ∧ c ≤ 'f' then some (c.toNat - 'a'.toNat + 10)
  else if 'A' ≤ c ∧ c ≤ 'F' then some (c.toNat - 'A'.toNat + 10)
  else none

/-- Two hex digits of one byte, as in `bytes.hex()`. -/
def byteToHex (b : Nat) : List Char := [charOfNibble (b / 16), charOfNibble (b % 16)]

/-- Embeds `bytes.hex()` on a byte sequence. -/
def bytesToHex (bs : List Nat) : String := String.mk ((bs.map byteToHex).flatten)

/-- Embeds `bytes.fromhex` on a character list: consumes digit pairs;
`none` models the `ValueError` on odd length or a non-hex digit. -/
def hexToBytesList : List Char → Option (List Nat)
  | [] => some []
  | c1 :: c2 :: rest => do
    let hi ← nibbleOfChar c1
    let lo ← nibbleOfChar c2
    let bs ← hexToBytesList rest
    pure ((hi * 16 + lo) :: bs)
  | [_] => none

/-- Embeds `bytes.fromhex` on a string. -/
def hexToBytes (s : String) : Option (List Nat) := hexToBytesList s.toList

/-- Embeds `_hash_password` (db.py lines 76-79) with the random salt made
an explicit argument: returns `(salt.hex(), pwd.hex())` where `pwd` is the
PBKDF2 derivation of the password under the salt. -/
def _hash_password (pbkdf2 : String → List Nat → Nat → List Nat)
    (password : String) (salt : List Nat) : String × String :=
  (bytesToHex salt, bytesToHex (pbkdf2 password salt PBKDF2_ITERATIONS))

/-- Embeds `_verify_password` (db.py lines 81-85): decodes the stored hex
salt and hash (`none` = `ValueError` from `bytes.fromhex` propagates),
re-derives and compares; `hmac.compare_digest` is byte-sequence equality. -/
def _verify_password (pbkdf2 : String → List Nat → Nat → List Nat)
    (password : String) (salt_hex : String) (hash_hex : String) : Option Bool := do
  let salt ← hexToBytes salt_hex
  let expected ← hexToBytes hash_hex
  pure (pbkdf2 password salt PBKDF2_ITERATIONS == expected)

/-- Embeds `get_user` (db.py lines 97-105): the row with the given
username, if any. -/
def get_user (db : Db) (username : String) : Option UserRecord :=
  db.find? (fun r => r.username == username)

/-- Embeds `create_user` (db.py lines 107-124) with the current instant and
the random salt explicit: hashes, inserts with `failed_attempts = 0`,
`lock_until = NULL` and all timestamp columns set to now; an insert that
hits the `UNIQUE(username)` constraint raises `sqlite3.IntegrityError`,
caught and turned into `(False, "El usuario ya existe.")`. -/
def create_user (pbkdf2 : String → List Nat → Nat → List Nat) (db : Db) (now : Int)
    (username : String) (password : String) (role : String) (salt : List Nat) :
    Db × Bool × Option String :=
  let sh := _hash_password pbkdf2 password salt
  if (get_user db username).isSome then
    (db, false, some "El usuario ya existe.")
  else
    (db ++ [{ id := db.length + 1
              username := username
              role := role
              salt_hex := sh.1
              password_hash_hex := sh.2
              failed_attempts := 0
              lock_until := none
              password_last_set := some (.valid now)
              created_at := some (.valid now)
              updated_at := some (.valid now) }], true, none)

/-- Embeds `authenticate` (db.py lines 126-131); `none` = an exception from
`_verify_password` propagates. -/
def authenticate (pbkdf2 : String → List Nat → Nat → List Nat) (db : Db)
    (username : String) (password : String) : Option (Bool × Option UserRecord) :=
  match get_user db username with
  | none => some (false, none)
  | some u => do
    let ok ← _verify_password pbkdf2 password u.salt_hex u.password_hash_hex
    pure (ok, if ok then some u else none)

/-- Embeds `register_failed_attempt` (db.py lines 133-147): no-op when the
username has no row; otherwise increments `failed_attempts`, sets
`lock_until` to now + `lock_minutes` once the new count reaches
`max_attempts`, and writes the row (the SQL `UPDATE` rewrites every row
matching the username). -/
def register_failed_attempt (db : Db) (now : Int) (username : String)
    (max_attempts : Int) (lock_minutes : Int) : Db :=
  match get_user db username with
  | none => db
  | some u =>
    let fa := u.failed_attempts + 1
    let lock_until := if fa ≥ max_attempts
      then some (Ts.valid (now + 60 * lock_minutes))
      else u.lock_until
    db.map (fun r => if r.username == username then
      { r with failed_attempts := fa, lock_until := lock_until,
               updated_at := some (.valid now) } else r)

/-- Embeds `reset_failed_attempts` (db.py lines 149-156): zeroes the
counter and clears the lock on every row matching the username. -/
def reset_failed_attempts (db : Db) (now : Int) (username : String) : Db :=
  db.map (fun r => if r.username == username then
    { r with failed_attempts := 0, lock_until := none,
             updated_at := some (.valid now) } else r)

/-- Remaining whole minutes reported for an active lock, auth_ui.py lines
50 and 79: `int((dt - now).total_seconds() // 60) + 1` with floor
division. -/
def minutesLeft (dt : Int) (now : Int) : Int := Int.fdiv (dt - now) 60 + 1

/-- Embeds `is_global_locked` (auth_ui.py lines 44-56): when the session
lock instant is in the future, locked with the remaining minutes; when it
has passed, lazily clears the lock and the counter. -/
def is_global_locked (g : GState) (now : Int) : GState × Option Int :=
  match g.global_lock_until with
  | some dt =>
    if now < dt then (g, some (minutesLeft dt now))
    else ({ global_failed_attempts := 0, global_lock_until := none }, none)
  | none => (g, none)

/-- Embeds `register_global_fail` (auth_ui.py lines 58-64): increments the
session counter and (re)arms the session lock once the counter is at the
global threshold. -/
def register_global_fail (g : GState) (now : Int) : GState :=
  let fa := g.global_failed_attempts + 1
  { global_failed_attempts := fa
    global_lock_until := if fa ≥ GLOBAL_MAX_FAILED_ATTEMPTS
      then some (now + 60 * GLOBAL_LOCK_MINUTES)
      else g.global_lock_until }

/-- Embeds `reset_global_fail` (auth_ui.py lines 66-69). -/
def reset_global_fail : GState :=
  { global_failed_attempts := 0, global_lock_until := none }

/-- Embeds `is_locked` (auth_ui.py lines 73-86): evaluates the per-user
lock of a fetched row; returns the possibly-updated store and the
remaining minutes when locked. A parse failure is caught by the `try` and
reported as not-locked; a lock instant in the past triggers
`db.reset_failed_attempts` as a side effect. -/
def is_locked (db : Db) (now : Int) (user_data : UserRecord) : Db × Option Int :=
  match user_data.lock_until with
  | none => (db, none)
  | some ts =>
    match parse_iso ts with
    | none => (db, none)
    | some dt =>
      if now < dt then (db, some (minutesLeft dt now))
      else (reset_failed_attempts db now user_data.username, none)

/-- Embeds `is_password_expired` (auth_ui.py lines 88-98). -/
def is_password_expired (now : Int) (user_data : UserRecord) : Bool :=
  if PASSWORD_EXPIRY_DAYS ≤ 0 then false
  else match user_data.password_last_set with
    | none => true
    | some ts =>
      match parse_iso ts with
      | none => true
      | some last_set => decide (now ≥ last_set + 60 * 60 * 24 * PASSWORD_EXPIRY_DAYS)

/-- Embeds `validate_password` (auth_ui.py lines 27-34): length at least 8,
`re.search` for `[A-Z]` and for `[^A-Za-z0-9]`. -/
def validate_password (password : String) : Bool :=
  if password.length < 8 then false
  else if !(password.toList.any (fun c => 'A' ≤ c && c ≤ 'Z')) then false
  else if !(password.toList.any (fun c =>
      !(('A' ≤ c && c ≤ 'Z') || ('a' ≤ c && c ≤ 'z') || ('0' ≤ c && c ≤ '9')))) then false
  else true

/-- User-visible result of one submitted login (the `st.error` /
`st.success` call taken in `show_login`), with the data interpolated into
the message. -/
inductive LoginOutcome : Type where
  | globalLocked (minutes : Int) : LoginOutcome
  | invalidUser : LoginOutcome
  | accountLocked (minutes : Int) : LoginOutcome
  | globalMaxReached : LoginOutcome
  | wrongPassword (remaining_user : Int) (remaining_global : Int) : LoginOutcome
  | passwordExpired : LoginOutcome
  | success (username : String) (role : String) : LoginOutcome
deriving DecidableEq, Repr

/-- Exact message string `show_login` displays for each outcome
(auth_ui.py lines 171, 177, 183, 198, 200, 208, 217). -/
def renderLoginMessage : LoginOutcome → String
  | .globalLocked m =>
      "⛔ Acceso global bloqueado. Intenta de nuevo en ~" ++ toString m ++ " min."
  | .invalidUser => "❌ Usuario o contraseña incorrectos"
  | .accountLocked m =>
      "⛔ Cuenta bloqueada por seguridad. Intenta de nuevo en ~" ++ toString m ++ " min."
  | .globalMaxReached =>
      "⛔ Máximo global alcanzado. Acceso bloqueado por 15 min."
  | .wrongPassword ru rg =>
      "❌ Credenciales incorrectas. Restantes → Usuario: "
        ++ (toString ru ++ (" | Global: " ++ toString rg))
  | .passwordExpired => "⚠️ Tu contraseña ha expirado. Debes cambiarla para continuar."
  | .success u _ => "✅ Bienvenido " ++ u ++ "!"

/-- Whether an outcome is the per-user account-locked report. -/
def LoginOutcome.isAccountLocked : LoginOutcome → Bool
  | .accountLocked _ => true
  | _ => false

/-- Embeds the submitted branch of `show_login` (auth_ui.py lines 157-221):
global-lock gate, user lookup, per-user lock gate, password verification,
counter updates, and the chosen outcome. The returned tuple is (credential
store, session guard state, `logged_in` flag, outcome); `none` models an
exception escaping (only possible from `_verify_password` on malformed
stored hex). -/
def show_login (pbkdf2 : String → List Nat → Nat → List Nat) (db : Db) (g0 : GState)
    (now : Int) (username : String) (password : String) :
    Option (Db × GState × Bool × LoginOutcome) :=
  match is_global_locked g0 now with
  | (g, some m) => some (db, g, false, .globalLocked m)
  | (g, none) =>
    match get_user db username with
    | none => some (db, register_global_fail g now, false, .invalidUser)
    | some user_data =>
      match is_locked db now user_data with
      | (db1, some m) => some (db1, register_global_fail g now, false, .accountLocked m)
      | (db1, none) =>
        match authenticate pbkdf2 db1 username password with
        | none => none
        | some (ok, _) =>
          if ok then
            let db2 := reset_failed_attempts db1 now username
            if is_password_expired now user_data then
              some (db2, reset_global_fail, false, .passwordExpired)
            else
              some (db2, reset_global_fail, true, .success username user_data.role)
          else
            let db2 := register_failed_attempt db1 now username
              MAX_FAILED_ATTEMPTS LOCKOUT_MINUTES
            let g2 := register_global_fail g now
            let after_user := user_data.failed_attempts + 1
            let remaining_user := max 0 (MAX_FAILED_ATTEMPTS - after_user)
            let remaining_global :=
              max 0 (GLOBAL_MAX_FAILED_ATTEMPTS - g2.global_failed_attempts)
            if remaining_global = 0 then
              some (db2, g2, false, .globalMaxReached)
            else
              some (db2, g2, false, .wrongPassword remaining_user remaining_global)

/-- Sequence of consecutive `register_failed_attempt` calls for one
username under the per-user defaults (`MAX_FAILED_ATTEMPTS`,
`LOCKOUT_MINUTES`), one call per listed instant — the store evolution of
repeated failed logins. -/
def applyFailures (db : Db) (username : String) (ts : List Int) : Db :=
  ts.foldl (fun d t =>
    register_failed_attempt d t username MAX_FAILED_ATTEMPTS LOCKOUT_MINUTES) db

/-- Concrete stand-in for `hashlib.pbkdf2_hmac` used in closed scenarios:
derives a one-byte key from the password length. Any function of this type
is accepted by the parametrised definitions; theorems quantified over the
KDF are instantiated with this one. -/
def toyKdf (password : String) (_salt : List Nat) (_iterations : Nat) : List Nat :=
  [password.length % 256]

/-- Seeded user "mario"/"1234"/role Admin (app.py `seed_initial_users`
call), with salt byte `0x01` and the `toyKdf` hash of "1234" (one byte
`0x04`), created at instant 0. -/
def marioRec : UserRecord :=
  { id := 1, username := "mario", role := "Admin", salt_hex := "01",
    password_hash_hex := "04", failed_attempts := 0, lock_until := none,
    password_last_set := some (.valid 0), created_at := some (.valid 0),
    updated_at := some (.valid 0) }

/-- The seeded mario row after guard-state updates: failure counter `fa`,
lock column `lock`, last update instant `upd`. -/
def marioAt (fa : Int) (lock : Option Ts) (upd : Int) : UserRecord :=
  { marioRec with failed_attempts := fa, lock_until := lock,
                  updated_at := some (.valid upd) }

/-- Session guard state at the start of a session
(`init_global_guard`). -/
def gInit : GState := { global_failed_attempts := 0, global_lock_until := none }

theorem get_user_map_update (db : Db) (username u : String)
    (g : UserRecord → UserRecord) (hg : ∀ r, (g r).username = r.username) :
    get_user (db.map (fun r => if r.username == username then g r else r)) u =
      (get_user db u).map (fun r => if r.username == username then g r else r) := by
  unfold get_user
  rw [List.find?_map]
  have hpred : ((fun r : UserRecord => r.username == u)
        ∘ (fun r => if r.username == username then g r else r))
      = (fun r : UserRecord => r.username == u) := by
    funext r
    by_cases h : (r.username == username) = true
    · simp [Function.comp, h, hg]
    · simp [Function.comp, h]
  rw [hpred]

theorem get_user_reset_failed_attempts (db : Db) (now : Int) (username u : String) :
    get_user (reset_failed_attempts db now username) u =
      (get_user db u).map (fun r => if r.username == username then
        { r with failed_attempts := 0, lock_until := none,
                 updated_at := some (.valid now) } else r) :=
  get_user_map_update db username u _ (fun _ => rfl)

theorem get_user_register_failed_attempt (db : Db) (now : Int) (u : String)
    (ma lm : Int) (r : UserRecord) (h : get_user db u = some r) :
    get_user (register_failed_attempt db now u ma lm) u =
      some { r with failed_attempts := r.failed_attempts + 1,
                    lock_until := if r.failed_attempts + 1 ≥ ma
                      then some (.valid (now + 60 * lm)) else r.lock_until,
                    updated_at := some (.valid now) } := by
  have hru : (r.username == u) = true := by
    have h2 := h
    unfold get_user at h2
    simpa using List.find?_some h2
  unfold register_failed_attempt
  rw [h]
  show get_user (db.map (fun row => if row.username == u then
    { row with failed_attempts := r.failed_attempts + 1,
               lock_until := if r.failed_attempts + 1 ≥ ma
                 then some (.valid (now + 60 * lm)) else r.lock_until,
               updated_at := some (.valid now) } else row)) u = _
  have hmap := get_user_map_update db u u
    (fun row =>
      { row with
        failed_attempts := r.failed_attempts + 1,
        lock_until := if r.failed_attempts + 1 ≥ ma
          then some (.valid (now + 60 * lm)) else r.lock_until,
        updated_at := some (.valid now) })
    (fun _ => rfl)
  rw [hmap, h]
  simp only [Option.map_some, hru, if_true]
  rw [beq_iff_eq] at hru
  simp [hru]

theorem nibbleOfChar_charOfNibble : ∀ n : Nat, n < 16 →
    nibbleOfChar (charOfNibble n) = some n := by decide

theorem hexToBytesList_flatten_byteToHex (bs : List Nat) (h : ∀ b ∈ bs, b < 256) :
    hexToBytesList ((bs.map byteToHex).flatten) = some bs := by
  induction bs with
  | nil => rfl
  | cons b rest ih =>
    have hb : b < 256 := h b (by simp)
    have h1 : b / 16 < 16 := by omega
    have h2 : b % 16 < 16 := by omega
    have hrest : hexToBytesList ((rest.map byteToHex).flatten) = some rest :=
      ih (fun x hx => h x (by simp [hx]))
    have hdm : b / 16 * 16 + b % 16 = b := by omega
    have hsplit : ((b :: rest).map byteToHex).flatten
        = charOfNibble (b / 16) :: charOfNibble (b % 16)
            :: (rest.map byteToHex).flatten := by
      simp [byteToHex]
    rw [hsplit]
    show (nibbleOfChar (charOfNibble (b / 16))).bind (fun hi =>
      (nibbleOfChar (charOfNibble (b % 16))).bind (fun lo =>
        (hexToBytesList ((rest.map byteToHex).flatten)).bind (fun bs =>
          some ((hi * 16 + lo) :: bs)))) = some (b :: rest)
    rw [nibbleOfChar_charOfNibble _ h1, nibbleOfChar_charOfNibble _ h2, hrest]
    show some ((b / 16 * 16 + b % 16) :: rest) = some (b :: rest)
    rw [hdm]

theorem hexToBytes_bytesToHex (bs : List Nat) (h : ∀ b ∈ bs, b < 256) :
    hexToBytes (bytesToHex bs) = some bs :=
  hexToBytesList_flatten_byteToHex bs h

theorem applyFailures_below (ts : List Int) : ∀ (db : Db) (u : String) (r : UserRecord),
    get_user db u = some r → r.lock_until = none →
    r.failed_attempts + ts.length < MAX_FAILED_ATTEMPTS →
    ∃ r', get_user (applyFailures db u ts) u = some r' ∧
      r'.failed_attempts = r.failed_attempts + ts.length ∧
      r'.lock_until = none ∧ r'.username = r.username := by
  induction ts with
  | nil =>
    intro db u r h hl _
    exact ⟨r, by simpa [applyFailures] using h, by simp, hl, rfl⟩
  | cons t ts ih =>
    intro db u r h hl hlt
    simp only [List.length_cons, MAX_FAILED_ATTEMPTS] at hlt
    have hstep := get_user_register_failed_attempt db t u
      MAX_FAILED_ATTEMPTS LOCKOUT_MINUTES r h
    have hcond : ¬ (r.failed_attempts + 1 ≥ MAX_FAILED_ATTEMPTS) := by
      simp only [MAX_FAILED_ATTEMPTS]
      push_cast at hlt
      omega
    rw [if_neg hcond, hl] at hstep
    obtain ⟨r', hr', hfa, hlo, hun⟩ := ih _ u _ hstep rfl
      (by simp only [MAX_FAILED_ATTEMPTS]; push_cast at hlt ⊢; omega)
    refine ⟨r', hr', ?_, hlo, hun⟩
    simp only at hfa
    rw [hfa]
    simp only [List.length_cons]
    push_cast
    ring

theorem applyFailures_lock (db : Db) (u : String) (r : UserRecord) (ts : List Int)
    (t5 : Int) (h : get_user db u = some r) (h0 : r.failed_attempts = 0)
    (hl : r.lock_until = none) (hlen : ts.length = 4) :
    ∃ r', get_user (applyFailures db u (ts ++ [t5])) u = some r' ∧
      r'.failed_attempts = MAX_FAILED_ATTEMPTS ∧
      r'.lock_until = some (.valid (t5 + 60 * LOCKOUT_MINUTES)) ∧
      r'.username = r.username := by
  obtain ⟨r4, hr4, hfa4, hlo4, hun4⟩ := applyFailures_below ts db u r h hl
    (by simp [MAX_FAILED_ATTEMPTS, hlen, h0])
  have happ : applyFailures db u (ts ++ [t5]) =
      register_failed_attempt (applyFailures db u ts) t5 u
        MAX_FAILED_ATTEMPTS LOCKOUT_MINUTES := by
    simp [applyFailures, List.foldl_append]
  have hstep := get_user_register_failed_attempt (applyFailures db u ts) t5 u
    MAX_FAILED_ATTEMPTS LOCKOUT_MINUTES r4 hr4
  have hcond : r4.failed_attempts + 1 ≥ MAX_FAILED_ATTEMPTS := by
    rw [hfa4, h0, hlen]
    simp [MAX_FAILED_ATTEMPTS]
  rw [if_pos hcond] at hstep
  refine ⟨{ r4 with
      failed_attempts := r4.failed_attempts + 1,
      lock_until := some (.valid (t5 + 60 * LOCKOUT_MINUTES)),
      updated_at := some (.valid t5) }, by rw [happ]; exact hstep, ?_, rfl, hun4⟩
  simp only
  rw [hfa4, h0, hlen]
  simp [MAX_FAILED_ATTEMPTS]

theorem minutesLeft_bounds (dt now : Int) (h1 : dt - 60 * 15 < now) (h2 : now < dt) :
    0 < minutesLeft dt now ∧ minutesLeft dt now ≤ 15 := by
  unfold minutesLeft
  rw [Int.fdiv_eq_ediv _ (by norm_num)]
  omega

theorem create_user_insert (pbkdf2 : String → List Nat → Nat → List Nat) (db : Db)
    (now : Int) (u pw role : String) (salt : List Nat) (h : get_user db u = none) :
    create_user pbkdf2 db now u pw role salt =
      (db ++ [{ id := db.length + 1, username := u, role := role,
                salt_hex := (_hash_password pbkdf2 pw salt).1,
                password_hash_hex := (_hash_password pbkdf2 pw salt).2,
                failed_attempts := 0, lock_until := none,
                password_last_set := some (.valid now),
                created_at := some (.valid now),
                updated_at := some (.valid now) }], true, none) := by
  unfold create_user
  rw [h]
  rfl

theorem create_user_duplicate (pbkdf2 : String → List Nat → Nat → List Nat) (db : Db)
    (now : Int) (u pw role : String) (salt : List Nat) (r : UserRecord)
    (h : get_user db u = some r) :
    create_user pbkdf2 db now u pw role salt = (db, false, some "El usuario ya existe.") := by
  unfold create_user
  rw [h]
  rfl

/-- C7: a user record whose `lock_until` column holds a malformed
timestamp is evaluated by `is_locked` without raising (the `try/except`
catches the parse failure) and is reported as not locked, with the store
untouched. -/
theorem C7_malformed_lock_fails_safe (db : Db) (now : Int) (u : UserRecord)
    (h : u.lock_until = some .malformed) :
    is_locked db now u = (db, none) := by
  unfold is_locked
  rw [h]
  rfl

theorem C7_witness :
    is_locked [marioAt 1 (some .malformed) 0] 50 (marioAt 1 (some .malformed) 0)
      = ([marioAt 1 (some .malformed) 0], none) :=
  C7_malformed_lock_fails_safe [marioAt 1 (some .malformed) 0] 50
    (marioAt 1 (some .malformed) 0) rfl

/-- C10: `register_failed_attempt` for a username with no row in the store
returns without touching the store at all. -/
theorem C10_register_failure_unknown_user_noop (db : Db) (now : Int)
    (username : String) (ma lm : Int) (h : get_user db username = none) :
    register_failed_attempt db now username ma lm = db := by
  unfold register_failed_attempt
  rw [h]

theorem C10_witness :
    register_failed_attempt [marioRec] 7 "ghost" 5 15 = [marioRec] :=
  C10_register_failure_unknown_user_noop [marioRec] 7 "ghost" 5 15 (by decide)

/-- C4: a record whose `lock_until` parses to an instant in the past is
reported as not locked by `is_locked`, and as a side effect the store row
for that username gets `failed_attempts = 0` and `lock_until` cleared
(lazy expiry on evaluation). -/
theorem C4_lazy_lock_expiry (db : Db) (now dt : Int) (u : UserRecord)
    (hlock : u.lock_until = some (.valid dt)) (hpast : dt < now) :
    is_locked db now u = (reset_failed_attempts db now u.username, none) ∧
    ∀ r, get_user db u.username = some r →
      get_user (is_locked db now u).1 u.username =
        some { r with failed_attempts := 0, lock_until := none,
                      updated_at := some (.valid now) } := by
  have hmain : is_locked db now u = (reset_failed_attempts db now u.username, none) := by
    unfold is_locked
    rw [hlock]
    show (if now < dt then (db, some (minutesLeft dt now))
      else (reset_failed_attempts db now u.username, none)) = _
    rw [if_neg (by omega)]
  refine ⟨hmain, ?_⟩
  intro r hr
  rw [hmain]
  show get_user (reset_failed_attempts db now u.username) u.username = _
  rw [get_user_reset_failed_attempts, hr]
  have hru : (r.username == u.username) = true := by
    have h2 := hr
    unfold get_user at h2
    simpa using List.find?_some h2
  rw [beq_iff_eq] at hru
  simp [hru]

theorem C4_witness :
    is_locked [marioAt 5 (some (.valid 904)) 4] 1000 (marioAt 5 (some (.valid 904)) 4)
      = (reset_failed_attempts [marioAt 5 (some (.valid 904)) 4] 1000 "mario", none) ∧
    get_user (is_locked [marioAt 5 (some (.valid 904)) 4] 1000
        (marioAt 5 (some (.valid 904)) 4)).1 "mario"
      = some (marioAt 0 none 1000) := by
  have h := C4_lazy_lock_expiry [marioAt 5 (some (.valid 904)) 4] 1000 904
    (marioAt 5 (some (.valid 904)) 4) rfl (by norm_num)
  exact ⟨h.1, h.2 (marioAt 5 (some (.valid 904)) 4) rfl⟩

/-- C6: creating the same username twice in sequence from a store without
it: the first call succeeds, the second fails with the distinct
duplicate-username message (the `IntegrityError` branch) and leaves the
store exactly as the first call left it, and the store then holds exactly
one row for that username. -/
theorem C6_duplicate_username (pbkdf2 : String → List Nat → Nat → List Nat)
    (db : Db) (t1 t2 : Int) (u pw1 pw2 role1 role2 : String) (s1 s2 : List Nat)
    (h : get_user db u = none) :
    (create_user pbkdf2 db t1 u pw1 role1 s1).2.1 = true ∧
    (create_user pbkdf2 db t1 u pw1 role1 s1).2.2 = none ∧
    create_user pbkdf2 (create_user pbkdf2 db t1 u pw1 role1 s1).1 t2 u pw2 role2 s2
      = ((create_user pbkdf2 db t1 u pw1 role1 s1).1, false,
         some "El usuario ya existe.") ∧
    ((create_user pbkdf2 db t1 u pw1 role1 s1).1.countP
      (fun r => r.username == u)) = 1 := by
  rw [create_user_insert pbkdf2 db t1 u pw1 role1 s1 h]
  have hget2 : get_user (db ++
      [{ id := db.length + 1
         username := u
         role := role1
         salt_hex := (_hash_password pbkdf2 pw1 s1).1
         password_hash_hex := (_hash_password pbkdf2 pw1 s1).2
         failed_attempts := 0
         lock_until := none
         password_last_set := some (.valid t1)
         created_at := some (.valid t1)
         updated_at := some (.valid t1) }]) u
      = some
      { id := db.length + 1
        username := u
        role := role1
        salt_hex := (_hash_password pbkdf2 pw1 s1).1
        password_hash_hex := (_hash_password pbkdf2 pw1 s1).2
        failed_attempts := 0
        lock_until := none
        password_last_set := some (.valid t1)
        created_at := some (.valid t1)
        updated_at := some (.valid t1) } := by
    unfold get_user
    rw [List.find?_append]
    unfold get_user at h
    rw [h]
    simp
  refine ⟨rfl, rfl, ?_, ?_⟩
  · exact create_user_duplicate pbkdf2 _ t2 u pw2 role2 s2 _ hget2
  · rw [List.countP_append]
    have hz : db.countP (fun r => r.username == u) = 0 := by
      rw [List.countP_eq_zero]
      unfold get_user at h
      rw [List.find?_eq_none] at h
      exact h
    rw [hz]
    simp

theorem C6_witness :
    (create_user toyKdf [] 0 "alice" "Abcdef1!" "Viewer" [2]).2.1 = true ∧
    (create_user toyKdf [] 0 "alice" "Abcdef1!" "Viewer" [2]).2.2 = none ∧
    create_user toyKdf (create_user toyKdf [] 0 "alice" "Abcdef1!" "Viewer" [2]).1 1
        "alice" "Zyxwvu9?" "Admin" [3]
      = ((create_user toyKdf [] 0 "alice" "Abcdef1!" "Viewer" [2]).1, false,
         some "El usuario ya existe.") ∧
    ((create_user toyKdf [] 0 "alice" "Abcdef1!" "Viewer" [2]).1.countP
      (fun r => r.username == "alice")) = 1 :=
  C6_duplicate_username toyKdf [] 0 1 "alice" "Abcdef1!" "Zyxwvu9?" "Viewer" "Admin"
    [2] [3] rfl

/-- C9: verifying a password against the salt and hash produced by hashing
that password succeeds, for any key-derivation function standing in for
`hashlib.pbkdf2_hmac` (whose outputs, like its salt inputs, are byte
sequences). -/
theorem C9_hash_verify_roundtrip (pbkdf2 : String → List Nat → Nat → List Nat)
    (p : String) (salt : List Nat) (hs : ∀ b ∈ salt, b < 256)
    (hk : ∀ b ∈ pbkdf2 p salt PBKDF2_ITERATIONS, b < 256) :
    _verify_password pbkdf2 p (_hash_password pbkdf2 p salt).1
      (_hash_password pbkdf2 p salt).2 = some true := by
  unfold _verify_password _hash_password
  show (hexToBytes (bytesToHex salt)).bind (fun s =>
    (hexToBytes (bytesToHex (pbkdf2 p salt PBKDF2_ITERATIONS))).bind (fun expected =>
      some (pbkdf2 p s PBKDF2_ITERATIONS == expected))) = some true
  rw [hexToBytes_bytesToHex salt hs, hexToBytes_bytesToHex _ hk]
  show some (pbkdf2 p salt PBKDF2_ITERATIONS == pbkdf2 p salt PBKDF2_ITERATIONS)
    = some true
  simp

theorem C9_witness :
    _verify_password toyKdf "1234" (_hash_password toyKdf "1234" [1]).1
      (_hash_password toyKdf "1234" [1]).2 = some true :=
  C9_hash_verify_roundtrip toyKdf "1234" [1] (by decide) (by decide)

theorem invalid_message_ne_wrongPassword_message (ru rg : Int) :
    renderLoginMessage .invalidUser ≠ renderLoginMessage (.wrongPassword ru rg) := by
  intro heq
  have hdata := congrArg (fun s => s.data.take 3) heq
  simp only [renderLoginMessage, String.data_append,
    List.take_append_eq_append_take] at hdata
  rw [show 3 - ("❌ Credenciales incorrectas. Restantes → Usuario: ").data.length = 0
    from by decide] at hdata
  simp only [Nat.zero_sub, List.take_zero, List.append_nil, List.nil_append] at hdata
  exact absurd hdata (by decide)

/-- C1 counterexample: from the seeded store, a login with an unknown
username and a login with the right username but wrong password report
different outcomes, with different messages — the claimed indistinguishable
generic outcome does not hold on the code. -/
theorem C1_counterexample :
    show_login toyKdf [marioRec] gInit 0 "ghost" "pw"
      = some ([marioRec], ⟨1, none⟩, false, .invalidUser) ∧
    show_login toyKdf [marioRec] gInit 0 "mario" "wrong"
      = some ([marioAt 1 none 0], ⟨1, none⟩, false, .wrongPassword 4 11) ∧
    LoginOutcome.invalidUser ≠ .wrongPassword 4 11 ∧
    renderLoginMessage .invalidUser ≠ renderLoginMessage (.wrongPassword 4 11) :=
  ⟨rfl, rfl, by decide, by decide⟩

/-- C1 amended: with no global lock, a login for an absent username reports
the fixed generic invalid-credentials outcome (after registering a global
failure); a wrong password for an existing username reports the
remaining-attempts variant, which differs from the generic outcome both as
an outcome and as a rendered message, so the two cases are distinguishable
to the caller. -/
theorem C1_unknown_user_generic_message (pbkdf2 : String → List Nat → Nat → List Nat)
    (db : Db) (g g1 : GState) (now : Int) (u p : String)
    (hgl : is_global_locked g now = (g1, none)) (habs : get_user db u = none) :
    show_login pbkdf2 db g now u p
      = some (db, register_global_fail g1 now, false, .invalidUser) ∧
    ∀ ru rg, LoginOutcome.invalidUser ≠ .wrongPassword ru rg ∧
      renderLoginMessage .invalidUser ≠ renderLoginMessage (.wrongPassword ru rg) := by
  constructor
  · unfold show_login
    rw [hgl, habs]
  · intro ru rg
    exact ⟨by simp, invalid_message_ne_wrongPassword_message ru rg⟩

theorem C1_witness :
    show_login toyKdf [marioRec] gInit 0 "ghost" "pw"
      = some ([marioRec], register_global_fail gInit 0, false, .invalidUser) ∧
    LoginOutcome.invalidUser ≠ .wrongPassword 4 11 ∧
    renderLoginMessage .invalidUser ≠ renderLoginMessage (.wrongPassword 4 11) := by
  have h := C1_unknown_user_generic_message toyKdf [marioRec] gInit gInit 0
    "ghost" "pw" rfl rfl
  exact ⟨h.1, h.2 4 11⟩

/-- C2 counterexample: seeded mario with "1234", five consecutive logins
with a wrong password at instants 0..4: the 5th attempt reports the
wrong-password outcome (0 user attempts and 7 global attempts remaining),
not an account-locked outcome, even though it sets the lock in the
store. -/
theorem C2_counterexample :
    show_login toyKdf [marioRec] gInit 0 "mario" "wrong"
      = some ([marioAt 1 none 0], ⟨1, none⟩, false, .wrongPassword 4 11) ∧
    show_login toyKdf [marioAt 1 none 0] ⟨1, none⟩ 1 "mario" "wrong"
      = some ([marioAt 2 none 1], ⟨2, none⟩, false, .wrongPassword 3 10) ∧
    show_login toyKdf [marioAt 2 none 1] ⟨2, none⟩ 2 "mario" "wrong"
      = some ([marioAt 3 none 2], ⟨3, none⟩, false, .wrongPassword 2 9) ∧
    show_login toyKdf [marioAt 3 none 2] ⟨3, none⟩ 3 "mario" "wrong"
      = some ([marioAt 4 none 3], ⟨4, none⟩, false, .wrongPassword 1 8) ∧
    show_login toyKdf [marioAt 4 none 3] ⟨4, none⟩ 4 "mario" "wrong"
      = some ([marioAt 5 (some (.valid 904)) 4], ⟨5, none⟩, false, .wrongPassword 0 7) ∧
    (LoginOutcome.wrongPassword 0 7).isAccountLocked = false :=
  ⟨rfl, rfl, rfl, rfl, rfl, rfl⟩

/-- C2 amended: in the same five-failure scenario the 5th attempt reports
the wrong-password outcome with 0 remaining user attempts while setting
`lock_until` to instant 904 (15 minutes after the 5th failure) in the
store, and a 6th attempt one second later, before expiry, reports
account-locked with 15 minutes remaining. -/
theorem C2_fifth_sets_lock_sixth_reports_locked :
    show_login toyKdf [marioAt 4 none 3] ⟨4, none⟩ 4 "mario" "wrong"
      = some ([marioAt 5 (some (.valid 904)) 4], ⟨5, none⟩, false, .wrongPassword 0 7) ∧
    (marioAt 5 (some (.valid 904)) 4).lock_until
      = some (.valid (4 + 60 * LOCKOUT_MINUTES)) ∧
    show_login toyKdf [marioAt 5 (some (.valid 904)) 4] ⟨5, none⟩ 5 "mario" "wrong"
      = some ([marioAt 5 (some (.valid 904)) 4], ⟨6, none⟩, false, .accountLocked 15) :=
  ⟨rfl, rfl, rfl⟩

/-- C5: while the session-global lock instant is in the future, every login
is rejected with the global-lock outcome and the store and guard are left
unchanged, regardless of the submitted credentials; concretely, 12 logins
against 12 distinct nonexistent usernames at instants 0..11 trip the
global lock (set to instant 911), and a 13th attempt at instant 12 with
the seeded valid credentials — which `authenticate` accepts — is rejected
with the global-lock outcome and does not log in. -/
theorem C5_global_lock_rejects_all :
    (∀ (pbkdf2 : String → List Nat → Nat → List Nat) (db : Db) (g : GState)
      (now dt : Int) (u p : String), g.global_lock_until = some dt → now < dt →
      show_login pbkdf2 db g now u p
        = some (db, g, false, .globalLocked (minutesLeft dt now))) ∧
    ((List.range 12).all fun k =>
      show_login toyKdf [marioRec] ⟨(k : Int), none⟩ (k : Int)
          ("ghost" ++ toString k) "pw"
        = some ([marioRec], ⟨(k : Int) + 1,
            if (k : Int) + 1 ≥ 12 then some 911 else none⟩, false, .invalidUser)) = true ∧
    show_login toyKdf [marioRec] ⟨12, some 911⟩ 12 "mario" "1234"
      = some ([marioRec], ⟨12, some 911⟩, false, .globalLocked 15) ∧
    authenticate toyKdf [marioRec] "mario" "1234" = some (true, some marioRec) := by
  refine ⟨?_, by decide, rfl, rfl⟩
  intro pbkdf2 db g now dt u p hlock hnow
  have hgl : is_global_locked g now = (g, some (minutesLeft dt now)) := by
    unfold is_global_locked
    rw [hlock]
    show (if now < dt then (g, some (minutesLeft dt now))
      else ({ global_failed_attempts := 0, global_lock_until := none }, none))
      = (g, some (minutesLeft dt now))
    rw [if_pos hnow]
  unfold show_login
  rw [hgl]

theorem C5_witness :
    show_login toyKdf [marioRec] ⟨13, some 911⟩ 100 "mario" "1234"
      = some ([marioRec], ⟨13, some 911⟩, false, .globalLocked (minutesLeft 911 100)) :=
  C5_global_lock_rejects_all.1 toyKdf [marioRec] ⟨13, some 911⟩ 100 911 "mario" "1234"
    rfl (by norm_num)

/-- C3: one `register_failed_attempt` call on an existing row increments
`failed_attempts` and sets `lock_until` to now + `lock_minutes` exactly
when the new count has reached `max_attempts`; under the defaults (5, 15),
after fewer than 5 consecutive failures on a fresh record the account
evaluates as not locked, and after the 5th failure it evaluates as locked
with a positive remaining-minutes value of at most 15 whenever checked
strictly after the 5th failure and before expiry. -/
theorem C3_register_failure_lockout :
    (∀ (db : Db) (u : String) (r : UserRecord) (t ma lm : Int),
      get_user db u = some r →
      ∃ r', get_user (register_failed_attempt db t u ma lm) u = some r' ∧
        r'.failed_attempts = r.failed_attempts + 1 ∧
        r'.lock_until = (if r.failed_attempts + 1 ≥ ma
          then some (.valid (t + 60 * lm)) else r.lock_until)) ∧
    (∀ (db : Db) (u : String) (r r' : UserRecord) (ts : List Int) (now : Int),
      get_user db u = some r → r.failed_attempts = 0 → r.lock_until = none →
      (ts.length : Int) < MAX_FAILED_ATTEMPTS →
      get_user (applyFailures db u ts) u = some r' →
      is_locked (applyFailures db u ts) now r' = (applyFailures db u ts, none)) ∧
    (∀ (db : Db) (u : String) (r : UserRecord) (ts : List Int) (t5 now : Int),
      get_user db u = some r → r.failed_attempts = 0 → r.lock_until = none →
      ts.length = 4 → t5 < now → now < t5 + 60 * LOCKOUT_MINUTES →
      ∃ r' m, get_user (applyFailures db u (ts ++ [t5])) u = some r' ∧
        is_locked (applyFailures db u (ts ++ [t5])) now r'
          = (applyFailures db u (ts ++ [t5]), some m) ∧
        0 < m ∧ m ≤ LOCKOUT_MINUTES) := by
  refine ⟨?_, ?_, ?_⟩
  · intro db u r t ma lm h
    exact ⟨_, get_user_register_failed_attempt db t u ma lm r h, rfl, rfl⟩
  · intro db u r r' ts now h h0 hl hlen hget
    obtain ⟨r2, hget2, hfa2, hlo2, hun2⟩ := applyFailures_below ts db u r h hl
      (by rw [h0]; simpa using hlen)
    rw [hget] at hget2
    obtain rfl : r' = r2 := Option.some.inj hget2
    unfold is_locked
    rw [hlo2]
  · intro db u r ts t5 now h h0 hl hlen h5 hexp
    obtain ⟨r2, hget2, hfa2, hlo2, hun2⟩ := applyFailures_lock db u r ts t5 h h0 hl hlen
    have hb := minutesLeft_bounds (t5 + 60 * LOCKOUT_MINUTES) now
      (by simp only [LOCKOUT_MINUTES]; omega) hexp
    refine ⟨r2, minutesLeft (t5 + 60 * LOCKOUT_MINUTES) now, hget2, ?_, hb.1,
      by simpa [LOCKOUT_MINUTES] using hb.2⟩
    unfold is_locked
    rw [hlo2]
    show (if now < t5 + 60 * LOCKOUT_MINUTES
      then (applyFailures db u (ts ++ [t5]),
        some (minutesLeft (t5 + 60 * LOCKOUT_MINUTES) now))
      else (reset_failed_attempts (applyFailures db u (ts ++ [t5])) now r2.username,
        none)) = _
    rw [if_pos hexp]

theorem C3_witness :
    (∃ r', get_user (register_failed_attempt [marioRec] 0 "mario" 5 15) "mario"
        = some r' ∧
      r'.failed_attempts = marioRec.failed_attempts + 1 ∧
      r'.lock_until = (if marioRec.failed_attempts + 1 ≥ 5
        then some (.valid (0 + 60 * 15)) else marioRec.lock_until)) ∧
    is_locked (applyFailures [marioRec] "mario" [0, 1, 2]) 100 (marioAt 3 none 2)
      = (applyFailures [marioRec] "mario" [0, 1, 2], none) ∧
    (∃ r' m, get_user (applyFailures [marioRec] "mario" ([0, 1, 2, 3] ++ [4])) "mario"
        = some r' ∧
      is_locked (applyFailures [marioRec] "mario" ([0, 1, 2, 3] ++ [4])) 5 r'
        = (applyFailures [marioRec] "mario" ([0, 1, 2, 3] ++ [4]), some m) ∧
      0 < m ∧ m ≤ LOCKOUT_MINUTES) :=
  ⟨C3_register_failure_lockout.1 [marioRec] "mario" marioRec 0 5 15 rfl,
   C3_register_failure_lockout.2.1 [marioRec] "mario" marioRec (marioAt 3 none 2)
     [0, 1, 2] 100 rfl rfl rfl (by norm_num [MAX_FAILED_ATTEMPTS]) rfl,
   C3_register_failure_lockout.2.2 [marioRec] "mario" marioRec [0, 1, 2, 3] 4 5
     rfl rfl rfl rfl (by norm_num) (by norm_num [LOCKOUT_MINUTES])⟩

/-- C8: the password policy accepts a password exactly when it has at
least 8 characters, at least one character in the range `A`-`Z`, and at
least one character outside `A`-`Z`, `a`-`z`, `0`-`9`; in particular
"abc", "abcdefgh" and "Abcdefgh" are rejected and "Abcdef1!" is
accepted. -/
theorem C8_password_policy :
    (∀ p : String, validate_password p = true ↔
      (8 ≤ p.length ∧ (∃ c ∈ p.toList, 'A' ≤ c ∧ c ≤ 'Z') ∧
        (∃ c ∈ p.toList, ¬(('A' ≤ c ∧ c ≤ 'Z') ∨ ('a' ≤ c ∧ c ≤ 'z')
          ∨ ('0' ≤ c ∧ c ≤ '9'))))) ∧
    validate_password "abc" = false ∧
    validate_password "abcdefgh" = false ∧
    validate_password "Abcdefgh" = false ∧
    validate_password "Abcdef1!" = true := by
  refine ⟨?_, by decide, by decide, by decide, by decide⟩
  intro p
  unfold validate_password
  split_ifs with h1 h2 h3
  · simp only [Bool.false_eq_true, false_iff]
    rintro ⟨h8, -, -⟩
    omega
  · simp only [Bool.false_eq_true, false_iff]
    rintro ⟨-, ⟨c, hc, hup⟩, -⟩
    rw [Bool.not_eq_true', List.any_eq_false] at h2
    have hcon := h2 c hc
    simp only [Bool.and_eq_true, decide_eq_true_eq, not_and] at hcon
    exact hcon hup.1 hup.2
  · simp only [Bool.false_eq_true, false_iff]
    rintro ⟨-, -, ⟨c, hc, hsp⟩⟩
    rw [Bool.not_eq_true', List.any_eq_false] at h3
    have hcon := h3 c hc
    simp only [Bool.not_eq_true', Bool.not_eq_false, Bool.or_eq_true,
      Bool.and_eq_true, decide_eq_true_eq] at hcon
    exact hsp (or_assoc.mp hcon)
  · simp only [true_iff]
    rw [Bool.not_eq_true, Bool.not_eq_false', List.any_eq_true] at h2 h3
    obtain ⟨c2, hc2, hup⟩ := h2
    obtain ⟨c3, hc3, hsp⟩ := h3
    simp only [Bool.and_eq_true, decide_eq_true_eq] at hup
    rw [Bool.not_eq_true'] at hsp
    simp only [Bool.or_eq_false_iff, Bool.and_eq_false_iff,
      decide_eq_false_iff_not] at hsp
    refine ⟨by omega, ⟨c2, hc2, hup⟩, ⟨c3, hc3, ?_⟩⟩
    tauto
